import Mathlib

/-!
Verification development for the quantity-derivation layer of the CROWN
repository (src/src/quantities.hxx).  Each per-event lambda registered via
`df.Define` is embedded as a Lean function on the per-event inputs: RVec
columns become lists (integer columns as `List ℤ`, float columns as `List ℚ`,
unsigned-char columns as `List ℕ`), and `ROOT::Math::PtEtaPhiMVector` becomes
a four-field real structure.  Bounds-checked RVec access that can throw is
modelled with `Option`; `at(pos, fallback)` returns the fallback out of range.
-/

/-- Modelled from the spec: the repository's `defaults.hxx` is not among the
given sources.  The spec's SentinelPolicy fixes one reserved out-of-domain
default per attribute category; the concrete numeric values below are
representative choices (the spec pins the role, not the number).  This is the
default for floating kinematic quantities. -/
def default_float : ℚ := -10

/-- Modelled from the spec: the generic-integer sentinel of `defaults.hxx`. -/
def default_int : ℤ := -10

/-- Modelled from the spec: the particle-ID-code sentinel of `defaults.hxx`. -/
def default_pdgid : ℤ := -999

/-- Modelled from the spec: the small-unsigned-code sentinel of
`defaults.hxx`. -/
def default_uchar : ℕ := 255

/-- `ROOT::VecOps::RVec::at(pos, fallback)`: returns the element when the
(signed) index is in range and the fallback otherwise.  A negative int index
converts to a huge unsigned position, hence counts as out of range. -/
def rvecAt {α : Type} (xs : List α) (i : ℤ) (fallback : α) : α :=
  if h : 0 ≤ i ∧ i.toNat < xs.length then xs.get ⟨i.toNat, h.2⟩ else fallback

/-- `ROOT::VecOps::RVec::at(pos)`: bounds-checked access that throws
`std::out_of_range` when the position is out of bounds; the throw is modelled
as `none`. -/
def rvecAtChecked {α : Type} (xs : List α) (i : ℤ) : Option α :=
  if h : 0 ≤ i ∧ i.toNat < xs.length then some (xs.get ⟨i.toNat, h.2⟩) else none

/-- A Cartesian 3-vector, as produced by `Vect()` on a Lorentz vector. -/
structure V3 where
  x : ℝ
  y : ℝ
  z : ℝ

/-- Componentwise 3-vector addition. -/
def V3.add (a b : V3) : V3 := ⟨a.x + b.x, a.y + b.y, a.z + b.z⟩

/-- `Dot`: the Euclidean scalar product. -/
def V3.dot (a b : V3) : ℝ := a.x * b.x + a.y * b.y + a.z * b.z

/-- `R()`: the Euclidean magnitude. -/
noncomputable def V3.mag (a : V3) : ℝ :=
  Real.sqrt (a.x * a.x + a.y * a.y + a.z * a.z)

/-- `Unit()` of the external vector library: divides by the magnitude when it
is positive and returns the vector unchanged (the zero vector) otherwise, so
it never divides by zero. -/
noncomputable def V3.unit (a : V3) : V3 :=
  if 0 < a.mag then ⟨a.x / a.mag, a.y / a.mag, a.z / a.mag⟩ else a

/-- `SetZ(0.0)`: zeroes the longitudinal component. -/
def V3.setZzero (a : V3) : V3 := ⟨a.x, a.y, 0⟩

/-- `ROOT::Math::PtEtaPhiMVector`: the (pt, eta, phi, mass) parametrization of
a four-vector.  The accessors `pt()`, `eta()`, `phi()`, `mass()` return the
stored coordinates. -/
structure FourVector where
  pt : ℝ
  eta : ℝ
  phi : ℝ
  mass : ℝ

/-- `Vect()`: the Cartesian momentum 3-vector of a (pt, eta, phi, m) vector,
with px = pt·cos φ, py = pt·sin φ, pz = pt·sinh η. -/
noncomputable def FourVector.vect (v : FourVector) : V3 :=
  ⟨v.pt * Real.cos v.phi, v.pt * Real.sin v.phi, v.pt * Real.sinh v.eta⟩

/-- `E()`: the energy of a (pt, eta, phi, m) vector, E = sqrt(|p|² + m²). -/
noncomputable def FourVector.e (v : FourVector) : ℝ :=
  Real.sqrt (V3.dot v.vect v.vect + v.mass * v.mass)

/-- Invariant mass of a Cartesian four-vector (t, x, y, z) with the external
library's sign convention: sqrt(m²) when m² = t² − |p|² is nonnegative, else
−sqrt(−m²). -/
noncomputable def mInvOf (t x y z : ℝ) : ℝ :=
  if 0 ≤ t * t - (x * x + y * y + z * z) then
    Real.sqrt (t * t - (x * x + y * y + z * z))
  else
    -Real.sqrt (-(t * t - (x * x + y * y + z * z)))

/-- Azimuthal angle of a Cartesian transverse vector: atan2(y, x), realised as
the complex argument, with range (−π, π]. -/
noncomputable def phiOfXY (x y : ℝ) : ℝ := Complex.arg ⟨x, y⟩

/-- Pseudorapidity from the transverse radius and the longitudinal component;
the degenerate rho = 0 case of the external library is collapsed to 0 (it is
not used by any claim). -/
noncomputable def etaOfRhoZ (rho z : ℝ) : ℝ :=
  if 0 < rho then Real.arsinh (z / rho) else 0

/-- `operator+` on two PtEtaPhiM vectors: the sum is formed in Cartesian
coordinates and converted back to the (pt, eta, phi, m) parametrization. -/
noncomputable def addP4 (a b : FourVector) : FourVector :=
  { pt := Real.sqrt ((a.vect.x + b.vect.x) * (a.vect.x + b.vect.x) +
      (a.vect.y + b.vect.y) * (a.vect.y + b.vect.y)),
    eta := etaOfRhoZ
      (Real.sqrt ((a.vect.x + b.vect.x) * (a.vect.x + b.vect.x) +
        (a.vect.y + b.vect.y) * (a.vect.y + b.vect.y)))
      (a.vect.z + b.vect.z),
    phi := phiOfXY (a.vect.x + b.vect.x) (a.vect.y + b.vect.y),
    mass := mInvOf (a.e + b.e) (a.vect.x + b.vect.x) (a.vect.y + b.vect.y)
      (a.vect.z + b.vect.z) }

namespace vectoroperations

/-- Modelled from the spec: `vectoroperations.hxx` (the vector-algebra
collaborator's transverse-mass primitive) is not among the given sources.
Per the spec: default if either input is invalid (pt < 0), else
sqrt(2·pt_a·pt_b·(1 − cos Δφ_ab)).  Δφ enters only through its cosine, which
is invariant under angle wrapping, so the plain angle difference is used. -/
noncomputable def calculateMT (particle met : FourVector) : ℝ :=
  if particle.pt < 0 ∨ met.pt < 0 then ((default_float : ℚ) : ℝ)
  else Real.sqrt (2 * particle.pt * met.pt *
    (1 - Real.cos (particle.phi - met.phi)))

end vectoroperations

namespace quantities

/-- The per-event lambda of `quantities::pt`: returns `p4.pt()`
unconditionally. -/
def pt (p4 : FourVector) : ℝ := p4.pt

/-- The per-event lambda of `quantities::eta`: returns `p4.eta()`
unconditionally (no invalidity guard). -/
def eta (p4 : FourVector) : ℝ := p4.eta

/-- The per-event lambda of `quantities::phi`: negative pt marks an invalid
Lorentz vector and yields the float default; otherwise `p4.phi()`. -/
noncomputable def phi (p4 : FourVector) : ℝ :=
  if p4.pt < 0 then ((default_float : ℚ) : ℝ) else p4.phi

/-- The per-event lambda of `quantities::mass`: negative pt marks an invalid
Lorentz vector and yields the float default; otherwise `p4.mass()`. -/
noncomputable def mass (p4 : FourVector) : ℝ :=
  if p4.pt < 0 then ((default_float : ℚ) : ℝ) else p4.mass

/-- The per-event lambda of `quantities::dxy`: `pair.at(position)` then
`dxy.at(index, default_float)`. -/
def dxy (position : ℤ) (pair : List ℤ) (dxyv : List ℚ) : Option ℚ :=
  (rvecAtChecked pair position).map fun index => rvecAt dxyv index default_float

/-- The per-event lambda of `quantities::dz`: `pair.at(position)` then
`dz.at(index, default_float)`. -/
def dz (position : ℤ) (pair : List ℤ) (dzv : List ℚ) : Option ℚ :=
  (rvecAtChecked pair position).map fun index => rvecAt dzv index default_float

/-- The per-event lambda of `quantities::charge`: `pair.at(position)` then
`charge.at(index, default_int)`. -/
def charge (position : ℤ) (pair : List ℤ) (chargev : List ℤ) : Option ℤ :=
  (rvecAtChecked pair position).map fun index => rvecAt chargev index default_int

/-- The per-event lambda of `quantities::m_vis`: default if either particle is
invalid, else the mass of the dilepton-system four-vector sum. -/
noncomputable def m_vis (p4_1 p4_2 : FourVector) : ℝ :=
  if p4_1.pt < 0 ∨ p4_2.pt < 0 then ((default_float : ℚ) : ℝ)
  else (addP4 p4_1 p4_2).mass

/-- The per-event lambda of `quantities::pzetamissvis`: projects MET and the
dilepton transverse momentum onto the transverse bisector of the two lepton
directions, with fixed α = 0.85 and no validity guard. -/
noncomputable def pzetamissvis (particle_1_p4 particle_2_p4 met : FourVector) : ℝ :=
  let alpha : ℝ := 0.85
  let met_3dvec := (FourVector.vect met).setZzero
  let p1_norm := ((FourVector.vect particle_1_p4).unit.setZzero).unit
  let p2_norm := ((FourVector.vect particle_2_p4).unit.setZzero).unit
  let zeta := (p1_norm.add p2_norm).unit
  let dileptonsystem :=
    ((FourVector.vect particle_1_p4).add (FourVector.vect particle_2_p4)).setZzero
  let pzetaVis := dileptonsystem.dot zeta
  met_3dvec.dot zeta - alpha * pzetaVis

/-- The per-event lambda of `quantities::mTdileptonMET`: forms the dilepton
four-vector sum and hands it, with MET, to the transverse-mass primitive. -/
noncomputable def mTdileptonMET (particle_1_p4 particle_2_p4 met : FourVector) : ℝ :=
  vectoroperations.calculateMT (addP4 particle_1_p4 particle_2_p4) met

/-- The per-event lambda of `quantities::mT`: hands the particle and MET to
the transverse-mass primitive. -/
noncomputable def mT (particle_p4 met : FourVector) : ℝ :=
  vectoroperations.calculateMT particle_p4 met

/-- The per-event lambda of `quantities::isolation`: `pair.at(position)` then
`isolation.at(index, default_float)`. -/
def isolation (position : ℤ) (pair : List ℤ) (isolationv : List ℚ) : Option ℚ :=
  (rvecAtChecked pair position).map fun index =>
    rvecAt isolationv index default_float

/-- The per-event lambda of `quantities::pdgid`: `pair.at(position)` then
`pdgid.at(index, default_pdgid)`. -/
def pdgid (position : ℤ) (pair : List ℤ) (pdgidv : List ℤ) : Option ℤ :=
  (rvecAtChecked pair position).map fun index => rvecAt pdgidv index default_pdgid

namespace tau

/-- The per-event lambda of `quantities::tau::decaymode`: `pair.at(position)`
then `decaymode.at(index, default_int)`. -/
def decaymode (position : ℤ) (pair : List ℤ) (decaymodev : List ℤ) : Option ℤ :=
  (rvecAtChecked pair position).map fun index =>
    rvecAt decaymodev index default_int

/-- The per-event lambda of `quantities::tau::genmatch`: `pair.at(position)`
then `genmatch.at(index, default_uchar)`. -/
def genmatch (position : ℤ) (pair : List ℤ) (genmatchv : List ℕ) : Option ℕ :=
  (rvecAtChecked pair position).map fun index =>
    rvecAt genmatchv index default_uchar

/-- The per-event lambda of `quantities::tau::matching_jet_pt`: resolve the
tau index from the pair, the associated jet index with fallback −1, then the
jet pt with fallback `default_float`. -/
def matching_jet_pt (position : ℤ) (pair taujets : List ℤ)
    (jetpt : List ℚ) : Option ℚ :=
  (rvecAtChecked pair position).map fun tauindex =>
    rvecAt jetpt (rvecAt taujets tauindex (-1)) default_float

/-- The per-event lambda of `quantities::tau::matching_genjet_pt`: resolve the
tau index, the associated reco-jet index (fallback −1), the associated gen-jet
index (fallback −1), then the gen-jet pt (fallback `default_float`). -/
def matching_genjet_pt (position : ℤ) (pair taujets genjets : List ℤ)
    (genjetpt : List ℚ) : Option ℚ :=
  (rvecAtChecked pair position).map fun tauindex =>
    rvecAt genjetpt (rvecAt genjets (rvecAt taujets tauindex (-1)) (-1))
      default_float

end tau

end quantities

/-- The transverse-plane-projected unit direction of a particle, as the spec
describes it: normalize the 3-vector, zero its longitudinal component,
re-normalize. -/
noncomputable def transUnitDir (v : FourVector) : V3 :=
  ((FourVector.vect v).unit.setZzero).unit

/-- The bisector direction ζ̂ between the two leptons in the transverse
plane: the normalized sum of the two transverse unit directions. -/
noncomputable def zetaHat (v1 v2 : FourVector) : V3 :=
  ((transUnitDir v1).add (transUnitDir v2)).unit

/-- pζ-miss: the projection of MET's transverse 3-vector onto ζ̂. -/
noncomputable def pZetaMiss (v1 v2 met : FourVector) : ℝ :=
  ((FourVector.vect met).setZzero).dot (zetaHat v1 v2)

/-- pζ-vis: the projection of the transverse component of p1 + p2 onto ζ̂. -/
noncomputable def pZetaVis (v1 v2 : FourVector) : ℝ :=
  (((FourVector.vect v1).add (FourVector.vect v2)).setZzero).dot (zetaHat v1 v2)

lemma rvecAt_pos {α : Type} (xs : List α) (i : ℤ) (d : α) (h0 : 0 ≤ i)
    (h : i.toNat < xs.length) : rvecAt xs i d = xs.get ⟨i.toNat, h⟩ := by
  unfold rvecAt
  rw [dif_pos ⟨h0, h⟩]

lemma rvecAt_neg {α : Type} (xs : List α) (i : ℤ) (d : α)
    (h : ¬(0 ≤ i ∧ i.toNat < xs.length)) : rvecAt xs i d = d := by
  unfold rvecAt
  rw [dif_neg h]

lemma rvecAt_neg_one {α : Type} (xs : List α) (d : α) : rvecAt xs (-1) d = d :=
  rvecAt_neg xs (-1) d (by intro h; exact absurd h.1 (by decide))

lemma map_checked {α : Type} (pair : List ℤ) (position idx : ℤ) (f : ℤ → α)
    (hidx : rvecAtChecked pair position = some idx) :
    (rvecAtChecked pair position).map f = some (f idx) := by
  rw [hidx]
  rfl

/-- C1: for a pair with at least position+1 entries, each indexed-attribute
lookup returns a[pair[position]] exactly when 0 ≤ pair[position] < len(a) and
the array's type-specific default otherwise (default_float for
dxy/dz/isolation, default_int for charge/decaymode, default_pdgid for pdgid,
default_uchar for genmatch); in particular pair=[2,−1],
attrs=[1/10, 2/10, 3/10] gives 3/10 at position 0 and the default at
position 1. -/
theorem indexed_lookup_semantics
    (pair : List ℤ) (position idx : ℤ)
    (attrsF : List ℚ) (attrsI attrsP : List ℤ) (attrsU : List ℕ)
    (hidx : rvecAtChecked pair position = some idx) :
    ((∀ h : idx.toNat < attrsF.length, 0 ≤ idx →
        quantities.dxy position pair attrsF = some (attrsF.get ⟨idx.toNat, h⟩) ∧
        quantities.dz position pair attrsF = some (attrsF.get ⟨idx.toNat, h⟩) ∧
        quantities.isolation position pair attrsF =
          some (attrsF.get ⟨idx.toNat, h⟩)) ∧
      (¬(0 ≤ idx ∧ idx.toNat < attrsF.length) →
        quantities.dxy position pair attrsF = some default_float ∧
        quantities.dz position pair attrsF = some default_float ∧
        quantities.isolation position pair attrsF = some default_float)) ∧
    ((∀ h : idx.toNat < attrsI.length, 0 ≤ idx →
        quantities.charge position pair attrsI =
          some (attrsI.get ⟨idx.toNat, h⟩) ∧
        quantities.tau.decaymode position pair attrsI =
          some (attrsI.get ⟨idx.toNat, h⟩)) ∧
      (¬(0 ≤ idx ∧ idx.toNat < attrsI.length) →
        quantities.charge position pair attrsI = some default_int ∧
        quantities.tau.decaymode position pair attrsI = some default_int)) ∧
    ((∀ h : idx.toNat < attrsP.length, 0 ≤ idx →
        quantities.pdgid position pair attrsP =
          some (attrsP.get ⟨idx.toNat, h⟩)) ∧
      (¬(0 ≤ idx ∧ idx.toNat < attrsP.length) →
        quantities.pdgid position pair attrsP = some default_pdgid)) ∧
    ((∀ h : idx.toNat < attrsU.length, 0 ≤ idx →
        quantities.tau.genmatch position pair attrsU =
          some (attrsU.get ⟨idx.toNat, h⟩)) ∧
      (¬(0 ≤ idx ∧ idx.toNat < attrsU.length) →
        quantities.tau.genmatch position pair attrsU = some default_uchar)) ∧
    (quantities.dxy 0 [2, -1] [1/10, 2/10, 3/10] = some (3/10) ∧
      quantities.dxy 1 [2, -1] [1/10, 2/10, 3/10] = some default_float) := by
  have hdxy : quantities.dxy position pair attrsF =
      some (rvecAt attrsF idx default_float) :=
    map_checked pair position idx _ hidx
  have hdz : quantities.dz position pair attrsF =
      some (rvecAt attrsF idx default_float) :=
    map_checked pair position idx _ hidx
  have hiso : quantities.isolation position pair attrsF =
      some (rvecAt attrsF idx default_float) :=
    map_checked pair position idx _ hidx
  have hch : quantities.charge position pair attrsI =
      some (rvecAt attrsI idx default_int) :=
    map_checked pair position idx _ hidx
  have hdm : quantities.tau.decaymode position pair attrsI =
      some (rvecAt attrsI idx default_int) :=
    map_checked pair position idx _ hidx
  have hpd : quantities.pdgid position pair attrsP =
      some (rvecAt attrsP idx default_pdgid) :=
    map_checked pair position idx _ hidx
  have hgm : quantities.tau.genmatch position pair attrsU =
      some (rvecAt attrsU idx default_uchar) :=
    map_checked pair position idx _ hidx
  have hs1 : quantities.dxy 0 [2, -1] [1/10, 2/10, 3/10] = some (3/10) := by
    have e0 : rvecAtChecked ([2, -1] : List ℤ) 0 = some 2 := by decide
    have := map_checked [2, -1] 0 2
      (fun index => rvecAt [1/10, 2/10, 3/10] index default_float) e0
    rw [show quantities.dxy 0 [2, -1] [1/10, 2/10, 3/10] =
      some (rvecAt [1/10, 2/10, 3/10] 2 default_float) from this,
      rvecAt_pos _ _ _ (by decide) (by decide)]
    rfl
  have hs2 : quantities.dxy 1 [2, -1] [1/10, 2/10, 3/10] =
      some default_float := by
    have e1 : rvecAtChecked ([2, -1] : List ℤ) 1 = some (-1) := by decide
    have := map_checked [2, -1] 1 (-1)
      (fun index => rvecAt [1/10, 2/10, 3/10] index default_float) e1
    rw [show quantities.dxy 1 [2, -1] [1/10, 2/10, 3/10] =
      some (rvecAt [1/10, 2/10, 3/10] (-1) default_float) from this,
      rvecAt_neg_one]
  refine ⟨⟨fun h h0 => ?_, fun h => ?_⟩, ⟨fun h h0 => ?_, fun h => ?_⟩,
    ⟨fun h h0 => ?_, fun h => ?_⟩, ⟨fun h h0 => ?_, fun h => ?_⟩, hs1, hs2⟩
  · exact ⟨by rw [hdxy, rvecAt_pos attrsF idx default_float h0 h],
      by rw [hdz, rvecAt_pos attrsF idx default_float h0 h],
      by rw [hiso, rvecAt_pos attrsF idx default_float h0 h]⟩
  · exact ⟨by rw [hdxy, rvecAt_neg attrsF idx default_float h],
      by rw [hdz, rvecAt_neg attrsF idx default_float h],
      by rw [hiso, rvecAt_neg attrsF idx default_float h]⟩
  · exact ⟨by rw [hch, rvecAt_pos attrsI idx default_int h0 h],
      by rw [hdm, rvecAt_pos attrsI idx default_int h0 h]⟩
  · exact ⟨by rw [hch, rvecAt_neg attrsI idx default_int h],
      by rw [hdm, rvecAt_neg attrsI idx default_int h]⟩
  · exact by rw [hpd, rvecAt_pos attrsP idx default_pdgid h0 h]
  · exact by rw [hpd, rvecAt_neg attrsP idx default_pdgid h]
  · exact by rw [hgm, rvecAt_pos attrsU idx default_uchar h0 h]
  · exact by rw [hgm, rvecAt_neg attrsU idx default_uchar h]

/-- Witness for C1: the spec scenario, obtained from the theorem at
pair=[2,−1], position 0 (resolved index 2). -/
theorem indexed_lookup_semantics_witness :
    quantities.dxy 0 [2, -1] [1/10, 2/10, 3/10] = some (3/10) ∧
      quantities.dxy 1 [2, -1] [1/10, 2/10, 3/10] = some default_float :=
  (indexed_lookup_semantics [2, -1] 0 2 [1/10, 2/10, 3/10] [] [] []
    (by decide)).2.2.2.2

/-- C10: the per-event functions of dxy, dz and isolation are extensionally
identical bounds-checked float lookups with fallback default_float. -/
theorem impact_parameter_isolation_lookups_agree :
    ∀ (position : ℤ) (pair : List ℤ) (a : List ℚ),
      quantities.dxy position pair a = quantities.dz position pair a ∧
      quantities.dz position pair a = quantities.isolation position pair a :=
  fun _ _ _ => ⟨rfl, rfl⟩

/-- C6: in the multi-hop association resolutions of matching_jet_pt and
matching_genjet_pt, a failure at any hop (an out-of-range index, which covers
the −1 no-association marker consumed by the next hop) makes the final result
the float default regardless of the contents of arrays at later hops; in
particular tauJetIndex=[5], genJetIndex=[−1,−1,−1,−1,−1,−1], pair=[0] gives
the default at position 0 for every gen-jet-pt array. -/
theorem association_chain_default
    (pair taujets : List ℤ) (position tauindex : ℤ)
    (hidx : rvecAtChecked pair position = some tauindex) :
    ((¬(0 ≤ tauindex ∧ tauindex.toNat < taujets.length) →
        ∀ jetpt : List ℚ,
          quantities.tau.matching_jet_pt position pair taujets jetpt =
            some default_float) ∧
      (∀ jetpt : List ℚ,
        ¬(0 ≤ rvecAt taujets tauindex (-1) ∧
            (rvecAt taujets tauindex (-1)).toNat < jetpt.length) →
          quantities.tau.matching_jet_pt position pair taujets jetpt =
            some default_float) ∧
      (¬(0 ≤ tauindex ∧ tauindex.toNat < taujets.length) →
        ∀ (genjets : List ℤ) (genjetpt : List ℚ),
          quantities.tau.matching_genjet_pt position pair taujets genjets
            genjetpt = some default_float) ∧
      (∀ genjets : List ℤ,
        ¬(0 ≤ rvecAt taujets tauindex (-1) ∧
            (rvecAt taujets tauindex (-1)).toNat < genjets.length) →
          ∀ genjetpt : List ℚ,
            quantities.tau.matching_genjet_pt position pair taujets genjets
              genjetpt = some default_float) ∧
      (∀ (genjets : List ℤ) (genjetpt : List ℚ),
        ¬(0 ≤ rvecAt genjets (rvecAt taujets tauindex (-1)) (-1) ∧
            (rvecAt genjets (rvecAt taujets tauindex (-1)) (-1)).toNat <
              genjetpt.length) →
          quantities.tau.matching_genjet_pt position pair taujets genjets
            genjetpt = some default_float)) ∧
    (∀ genjetpt : List ℚ,
      quantities.tau.matching_genjet_pt 0 [0] [5] [-1, -1, -1, -1, -1, -1]
        genjetpt = some default_float) := by
  refine ⟨⟨fun h jetpt => ?_, fun jetpt h => ?_, fun h genjets genjetpt => ?_,
    fun genjets h genjetpt => ?_, fun genjets genjetpt h => ?_⟩,
    fun genjetpt => ?_⟩
  · rw [show quantities.tau.matching_jet_pt position pair taujets jetpt =
        some (rvecAt jetpt (rvecAt taujets tauindex (-1)) default_float) from
        map_checked pair position tauindex _ hidx,
      rvecAt_neg taujets tauindex (-1) h, rvecAt_neg_one]
  · rw [show quantities.tau.matching_jet_pt position pair taujets jetpt =
        some (rvecAt jetpt (rvecAt taujets tauindex (-1)) default_float) from
        map_checked pair position tauindex _ hidx,
      rvecAt_neg jetpt _ default_float h]
  · rw [show quantities.tau.matching_genjet_pt position pair taujets genjets
          genjetpt =
        some (rvecAt genjetpt
          (rvecAt genjets (rvecAt taujets tauindex (-1)) (-1))
          default_float) from map_checked pair position tauindex _ hidx,
      rvecAt_neg taujets tauindex (-1) h, rvecAt_neg_one, rvecAt_neg_one]
  · rw [show quantities.tau.matching_genjet_pt position pair taujets genjets
          genjetpt =
        some (rvecAt genjetpt
          (rvecAt genjets (rvecAt taujets tauindex (-1)) (-1))
          default_float) from map_checked pair position tauindex _ hidx,
      rvecAt_neg genjets _ (-1) h, rvecAt_neg_one]
  · rw [show quantities.tau.matching_genjet_pt position pair taujets genjets
          genjetpt =
        some (rvecAt genjetpt
          (rvecAt genjets (rvecAt taujets tauindex (-1)) (-1))
          default_float) from map_checked pair position tauindex _ hidx,
      rvecAt_neg genjetpt _ default_float h]
  · rw [show quantities.tau.matching_genjet_pt 0 [0] [5]
          [-1, -1, -1, -1, -1, -1] genjetpt =
        some (rvecAt genjetpt
          (rvecAt [-1, -1, -1, -1, -1, -1] (rvecAt [5] 0 (-1)) (-1))
          default_float) from
        map_checked [0] 0 0 _ (by decide),
      show rvecAt ([5] : List ℤ) 0 (-1) = 5 from by decide,
      show rvecAt ([-1, -1, -1, -1, -1, -1] : List ℤ) 5 (-1) = -1 from by
        decide,
      rvecAt_neg_one]

/-- Witness for C6: the spec scenario at a concrete gen-jet-pt array. -/
theorem association_chain_default_witness :
    quantities.tau.matching_genjet_pt 0 [0] [5] [-1, -1, -1, -1, -1, -1]
      [9] = some default_float :=
  (association_chain_default [0] [5] 0 0 (by decide)).2 [9]

/-- C8: pt and eta are read out unconditionally from the stored coordinates
(pt passes the raw, possibly negative, invalidity signal through; eta has no
pt<0 guard), while phi keeps its guard — the asymmetry is preserved. -/
theorem pt_eta_unguarded :
    ∀ v : FourVector, quantities.pt v = v.pt ∧ quantities.eta v = v.eta ∧
      quantities.phi v =
        if v.pt < 0 then ((default_float : ℚ) : ℝ) else v.phi :=
  fun _ => ⟨rfl, rfl, rfl⟩

/-- C5: for an invalid four-vector (pt < 0) phi and mass both return the
default sentinel; for pt ≥ 0, phi returns the stored azimuthal angle — hence
a value in (−π, π] whenever the parametrization is well-formed — and mass
returns the stored mass, which agrees with the invariant mass recomputed from
the vector's own Cartesian (E, px, py, pz) whenever the stored mass is
nonnegative. -/
theorem phi_mass_guard_semantics (v : FourVector) :
    (v.pt < 0 → quantities.phi v = ((default_float : ℚ) : ℝ) ∧
      quantities.mass v = ((default_float : ℚ) : ℝ)) ∧
    (0 ≤ v.pt → -Real.pi < v.phi → v.phi ≤ Real.pi →
      quantities.phi v = v.phi ∧ -Real.pi < quantities.phi v ∧
        quantities.phi v ≤ Real.pi) ∧
    (0 ≤ v.pt → 0 ≤ v.mass →
      quantities.mass v = v.mass ∧
      mInvOf v.e v.vect.x v.vect.y v.vect.z = v.mass) := by
  refine ⟨fun h => ⟨if_pos h, if_pos h⟩, fun h h1 h2 => ?_, fun h hm => ?_⟩
  · have e1 : quantities.phi v = v.phi := if_neg (not_lt.2 h)
    exact ⟨e1, by rw [e1]; exact h1, by rw [e1]; exact h2⟩
  · have e1 : quantities.mass v = v.mass := if_neg (not_lt.2 h)
    refine ⟨e1, ?_⟩
    have hd : 0 ≤ V3.dot v.vect v.vect + v.mass * v.mass := by
      unfold V3.dot
      nlinarith [mul_self_nonneg v.vect.x, mul_self_nonneg v.vect.y,
        mul_self_nonneg v.vect.z, mul_self_nonneg v.mass]
    have he : v.e * v.e = V3.dot v.vect v.vect + v.mass * v.mass :=
      Real.mul_self_sqrt hd
    unfold mInvOf
    have harg : v.e * v.e -
        (v.vect.x * v.vect.x + v.vect.y * v.vect.y + v.vect.z * v.vect.z) =
        v.mass * v.mass := by
      rw [he]
      unfold V3.dot
      ring
    rw [harg, if_pos (mul_self_nonneg v.mass)]
    exact Real.sqrt_mul_self hm

/-- Witness for C5: an invalid vector (pt = −5) yields the default for phi,
and a valid vector (pt = 2, phi = 1, mass = 3) yields its stored phi and
mass. -/
theorem phi_mass_guard_semantics_witness :
    quantities.phi ⟨-5, 1, 9, 9⟩ = ((default_float : ℚ) : ℝ) ∧
      quantities.phi ⟨2, 1, 1, 3⟩ = 1 ∧ quantities.mass ⟨2, 1, 1, 3⟩ = 3 := by
  have hgt : -Real.pi < (1 : ℝ) := by nlinarith [Real.pi_gt_three]
  have hle : (1 : ℝ) ≤ Real.pi := by nlinarith [Real.pi_gt_three]
  exact ⟨((phi_mass_guard_semantics ⟨-5, 1, 9, 9⟩).1 (by norm_num)).1,
    ((phi_mass_guard_semantics ⟨2, 1, 1, 3⟩).2.1 (by norm_num) hgt hle).1,
    ((phi_mass_guard_semantics ⟨2, 1, 1, 3⟩).2.2 (by norm_num)
      (by norm_num)).1⟩

/-- C9: the visible mass is symmetric for valid inputs, each side being the
invariant mass of the Cartesian four-vector sum of the two particles. -/
theorem m_vis_symmetric (v1 v2 : FourVector) (h1 : 0 ≤ v1.pt)
    (h2 : 0 ≤ v2.pt) :
    quantities.m_vis v1 v2 = quantities.m_vis v2 v1 ∧
    quantities.m_vis v1 v2 =
      mInvOf (v1.e + v2.e) (v1.vect.x + v2.vect.x) (v1.vect.y + v2.vect.y)
        (v1.vect.z + v2.vect.z) := by
  have g12 : ¬(v1.pt < 0 ∨ v2.pt < 0) := not_or.2 ⟨not_lt.2 h1, not_lt.2 h2⟩
  have g21 : ¬(v2.pt < 0 ∨ v1.pt < 0) := not_or.2 ⟨not_lt.2 h2, not_lt.2 h1⟩
  have e12 : quantities.m_vis v1 v2 =
      mInvOf (v1.e + v2.e) (v1.vect.x + v2.vect.x) (v1.vect.y + v2.vect.y)
        (v1.vect.z + v2.vect.z) := by
    unfold quantities.m_vis
    rw [if_neg g12]
    rfl
  have e21 : quantities.m_vis v2 v1 =
      mInvOf (v2.e + v1.e) (v2.vect.x + v1.vect.x) (v2.vect.y + v1.vect.y)
        (v2.vect.z + v1.vect.z) := by
    unfold quantities.m_vis
    rw [if_neg g21]
    rfl
  refine ⟨?_, e12⟩
  rw [e12, e21, add_comm v1.e v2.e, add_comm v1.vect.x v2.vect.x,
    add_comm v1.vect.y v2.vect.y, add_comm v1.vect.z v2.vect.z]

/-- Witness for C9: symmetry at two concrete valid vectors. -/
theorem m_vis_symmetric_witness :
    quantities.m_vis ⟨1, 0, 0, 0⟩ ⟨2, 0, 0, 0⟩ =
      quantities.m_vis ⟨2, 0, 0, 0⟩ ⟨1, 0, 0, 0⟩ :=
  (m_vis_symmetric ⟨1, 0, 0, 0⟩ ⟨2, 0, 0, 0⟩ (by norm_num) (by norm_num)).1

/-- C7: for particles with nonzero transverse components, pzetamissvis equals
pZetaMiss − 0.85·pZetaVis, where the bisector ζ̂ is the normalized sum of the
two transverse unit directions (normalize, zero z, re-normalize each), and the
projections are taken with the z-zeroed MET and dilepton 3-vectors. -/
theorem pzetamissvis_bisector_formula (v1 v2 met : FourVector)
    (h1 : v1.pt ≠ 0) (h2 : v2.pt ≠ 0) :
    quantities.pzetamissvis v1 v2 met =
      pZetaMiss v1 v2 met - 0.85 * pZetaVis v1 v2 := rfl

/-- Witness for C7: the decomposition at concrete vectors with nonzero
transverse momentum. -/
theorem pzetamissvis_bisector_formula_witness :
    quantities.pzetamissvis ⟨1, 0, 0, 0⟩ ⟨1, 0, 1, 0⟩ ⟨3, 0, 2, 0⟩ =
      pZetaMiss ⟨1, 0, 0, 0⟩ ⟨1, 0, 1, 0⟩ ⟨3, 0, 2, 0⟩ -
        0.85 * pZetaVis ⟨1, 0, 0, 0⟩ ⟨1, 0, 1, 0⟩ :=
  pzetamissvis_bisector_formula _ _ _ (by norm_num) (by norm_num)

/-- C3 (amended): pzetamissvis applies no validity guard — even when one of
the leptons is invalid (pt < 0) it returns the computed bisector projection
pZetaMiss − 0.85·pZetaVis, not the default sentinel. -/
theorem pzetamissvis_no_guard (v1 v2 met : FourVector)
    (h : v1.pt < 0 ∨ v2.pt < 0) :
    quantities.pzetamissvis v1 v2 met =
      pZetaMiss v1 v2 met - 0.85 * pZetaVis v1 v2 := rfl

/-- Witness for C3: the unguarded computation at an invalid first lepton. -/
theorem pzetamissvis_no_guard_witness :
    quantities.pzetamissvis ⟨-1, 0, 0, 0⟩ ⟨1, 0, 0, 0⟩ ⟨1, 0, 0, 0⟩ =
      pZetaMiss ⟨-1, 0, 0, 0⟩ ⟨1, 0, 0, 0⟩ ⟨1, 0, 0, 0⟩ -
        0.85 * pZetaVis ⟨-1, 0, 0, 0⟩ ⟨1, 0, 0, 0⟩ :=
  pzetamissvis_no_guard _ _ _ (Or.inl (by norm_num))

lemma sqrt_four : Real.sqrt 4 = 2 := by
  rw [show (4 : ℝ) = 2 ^ 2 by norm_num]
  exact Real.sqrt_sq (by norm_num)

/-- C3 counterexample: with an invalid first lepton (pt = −1) pzetamissvis
still returns the computed projection value (here 8.3), not the default
sentinel. -/
theorem pzetamissvis_invalid_lepton_counterexample :
    FourVector.pt ⟨-1, 0, 0, 0⟩ < 0 ∧
      quantities.pzetamissvis ⟨-1, 0, 0, 0⟩ ⟨1, 0, Real.pi, 0⟩
        ⟨10, 0, Real.pi, 0⟩ ≠ ((default_float : ℚ) : ℝ) := by
  have hv1 : FourVector.vect ⟨-1, 0, 0, 0⟩ = ⟨-1, 0, 0⟩ := by
    norm_num [FourVector.vect]
  have hv2 : FourVector.vect ⟨1, 0, Real.pi, 0⟩ = ⟨-1, 0, 0⟩ := by
    norm_num [FourVector.vect, Real.cos_pi, Real.sin_pi]
  have hmet : FourVector.vect ⟨10, 0, Real.pi, 0⟩ = ⟨-10, 0, 0⟩ := by
    norm_num [FourVector.vect, Real.cos_pi, Real.sin_pi]
  have hm1 : V3.mag ⟨-1, 0, 0⟩ = 1 := by
    norm_num [V3.mag, Real.sqrt_one]
  have hm2 : V3.mag ⟨-2, 0, 0⟩ = 2 := by
    norm_num [V3.mag, sqrt_four]
  have hu1 : V3.unit ⟨-1, 0, 0⟩ = ⟨-1, 0, 0⟩ := by
    unfold V3.unit
    rw [hm1]
    norm_num
  have hu2 : V3.unit ⟨-2, 0, 0⟩ = ⟨-1, 0, 0⟩ := by
    unfold V3.unit
    rw [hm2]
    norm_num
  have hsz1 : V3.setZzero ⟨-1, 0, 0⟩ = ⟨-1, 0, 0⟩ := rfl
  have hszm : V3.setZzero ⟨-10, 0, 0⟩ = ⟨-10, 0, 0⟩ := rfl
  have hsz2 : V3.setZzero ⟨-2, 0, 0⟩ = ⟨-2, 0, 0⟩ := rfl
  have hadd : V3.add ⟨-1, 0, 0⟩ ⟨-1, 0, 0⟩ = ⟨-2, 0, 0⟩ := by
    norm_num [V3.add]
  constructor
  · norm_num
  · have hval : quantities.pzetamissvis ⟨-1, 0, 0, 0⟩ ⟨1, 0, Real.pi, 0⟩
        ⟨10, 0, Real.pi, 0⟩ = 8.3 := by
      simp only [quantities.pzetamissvis, hv1, hv2, hmet, hu1, hsz1, hszm,
        hadd, hu2, hsz2, V3.dot]
      norm_num
    rw [hval]
    norm_num [default_float]

/-- C2 counterexample: an invalid first lepton (pt = −1) does not make
mTdileptonMET return the default — the summed dilepton four-vector has
nonnegative pt, so the transverse-mass primitive computes a square root. -/
theorem mTdileptonMET_invalid_lepton_counterexample :
    FourVector.pt ⟨-1, 0, 0, 0⟩ < 0 ∧
      quantities.mTdileptonMET ⟨-1, 0, 0, 0⟩ ⟨2, 0, 0, 0⟩ ⟨1, 0, 0, 0⟩ ≠
        ((default_float : ℚ) : ℝ) := by
  constructor
  · norm_num
  · intro hEq
    have hguard : ¬((addP4 ⟨-1, 0, 0, 0⟩ ⟨2, 0, 0, 0⟩).pt < 0 ∨
        FourVector.pt ⟨1, 0, 0, 0⟩ < 0) := by
      push_neg
      exact ⟨Real.sqrt_nonneg _, by norm_num⟩
    have h0 : (0 : ℝ) ≤ quantities.mTdileptonMET ⟨-1, 0, 0, 0⟩ ⟨2, 0, 0, 0⟩
        ⟨1, 0, 0, 0⟩ := by
      unfold quantities.mTdileptonMET vectoroperations.calculateMT
      rw [if_neg hguard]
      exact Real.sqrt_nonneg _
    rw [hEq] at h0
    norm_num [default_float] at h0

/-- C2 (amended): mT returns the default when its particle is invalid
(pt < 0), but mTdileptonMET sums the two leptons first — the summed vector's
pt is a square root, hence nonnegative — so a lepton's invalidity does not
propagate: for valid MET the computed transverse mass of (v1+v2, met) is
returned. -/
theorem mT_guard_semantics :
    (∀ particle met : FourVector, particle.pt < 0 →
      quantities.mT particle met = ((default_float : ℚ) : ℝ)) ∧
    (∀ v1 v2 met : FourVector, 0 ≤ met.pt →
      quantities.mTdileptonMET v1 v2 met =
        Real.sqrt (2 * (addP4 v1 v2).pt * met.pt *
          (1 - Real.cos ((addP4 v1 v2).phi - met.phi)))) := by
  constructor
  · intro particle met h
    unfold quantities.mT vectoroperations.calculateMT
    rw [if_pos (Or.inl h)]
  · intro v1 v2 met h
    unfold quantities.mTdileptonMET vectoroperations.calculateMT
    rw [if_neg]
    push_neg
    exact ⟨Real.sqrt_nonneg _, h⟩

/-- Witness for C2: mT defaults at an invalid particle; mTdileptonMET
computes the square-root formula at concrete valid MET. -/
theorem mT_guard_semantics_witness :
    quantities.mT ⟨-1, 0, 0, 0⟩ ⟨1, 0, 0, 0⟩ = ((default_float : ℚ) : ℝ) ∧
      quantities.mTdileptonMET ⟨1, 0, 0, 0⟩ ⟨1, 0, 0, 0⟩ ⟨1, 0, 0, 0⟩ =
        Real.sqrt (2 * (addP4 ⟨1, 0, 0, 0⟩ ⟨1, 0, 0, 0⟩).pt *
          FourVector.pt ⟨1, 0, 0, 0⟩ *
          (1 - Real.cos ((addP4 ⟨1, 0, 0, 0⟩ ⟨1, 0, 0, 0⟩).phi -
            FourVector.phi ⟨1, 0, 0, 0⟩))) :=
  ⟨mT_guard_semantics.1 ⟨-1, 0, 0, 0⟩ ⟨1, 0, 0, 0⟩ (by norm_num),
    mT_guard_semantics.2 ⟨1, 0, 0, 0⟩ ⟨1, 0, 0, 0⟩ ⟨1, 0, 0, 0⟩ (by norm_num)⟩

/-- C4 (amended): provided the index pair has at least position+1 entries,
every indexed lookup returns a value (never throws) whatever the attribute
and association arrays hold; and pzetamissvis involves no division by zero —
normalization leaves the zero vector unchanged — so in particular with both
leptons at zero transverse momentum it returns exactly 0, not NaN.  (Without
the length precondition a lookup does throw; see the counterexample.) -/
theorem lookups_total_and_pzeta_zero_pt :
    (∀ (position : ℤ) (pair : List ℤ), 0 ≤ position →
      position.toNat < pair.length →
      ∀ (aF : List ℚ) (aI aP taujets genjets : List ℤ) (aU : List ℕ),
        (quantities.dxy position pair aF).isSome = true ∧
        (quantities.dz position pair aF).isSome = true ∧
        (quantities.isolation position pair aF).isSome = true ∧
        (quantities.charge position pair aI).isSome = true ∧
        (quantities.pdgid position pair aP).isSome = true ∧
        (quantities.tau.decaymode position pair aI).isSome = true ∧
        (quantities.tau.genmatch position pair aU).isSome = true ∧
        (quantities.tau.matching_jet_pt position pair taujets aF).isSome =
          true ∧
        (quantities.tau.matching_genjet_pt position pair taujets genjets
          aF).isSome = true) ∧
    (∀ (eta1 phi1 m1 eta2 phi2 m2 : ℝ) (met : FourVector),
      quantities.pzetamissvis ⟨0, eta1, phi1, m1⟩ ⟨0, eta2, phi2, m2⟩ met =
        0) := by
  constructor
  · intro position pair h0 hlen aF aI aP taujets genjets aU
    have hs : rvecAtChecked pair position =
        some (pair.get ⟨position.toNat, hlen⟩) := by
      unfold rvecAtChecked
      rw [dif_pos ⟨h0, hlen⟩]
    refine ⟨?_, ?_, ?_, ?_, ?_, ?_, ?_, ?_, ?_⟩ <;>
      simp [quantities.dxy, quantities.dz, quantities.isolation,
        quantities.charge, quantities.pdgid, quantities.tau.decaymode,
        quantities.tau.genmatch, quantities.tau.matching_jet_pt,
        quantities.tau.matching_genjet_pt, hs]
  · intro eta1 phi1 m1 eta2 phi2 m2 met
    have hv1 : FourVector.vect ⟨0, eta1, phi1, m1⟩ = ⟨0, 0, 0⟩ := by
      simp [FourVector.vect]
    have hv2 : FourVector.vect ⟨0, eta2, phi2, m2⟩ = ⟨0, 0, 0⟩ := by
      simp [FourVector.vect]
    have hm0 : V3.mag ⟨0, 0, 0⟩ = 0 := by
      simp [V3.mag]
    have hu0 : V3.unit ⟨0, 0, 0⟩ = ⟨0, 0, 0⟩ := by
      unfold V3.unit
      rw [hm0]
      norm_num
    have hsz0 : V3.setZzero ⟨0, 0, 0⟩ = ⟨0, 0, 0⟩ := rfl
    have hadd0 : V3.add ⟨0, 0, 0⟩ ⟨0, 0, 0⟩ = ⟨0, 0, 0⟩ := by
      norm_num [V3.add]
    simp [quantities.pzetamissvis, hv1, hv2, hu0, hsz0, hadd0, V3.dot]

/-- C4 counterexample: with the valid position selector 0 but an empty pair
vector, the dxy lookup throws std::out_of_range (modelled as none) — the
lookups are not total for arbitrary pair contents. -/
theorem lookup_short_pair_counterexample :
    quantities.dxy 0 [] [1] = none := rfl

/-- Witness for C4: a lookup with the position in range returns a value. -/
theorem lookups_total_and_pzeta_zero_pt_witness :
    (quantities.dxy 0 [3] [5]).isSome = true :=
  (lookups_total_and_pzeta_zero_pt.1 0 [3] (by decide) (by decide)
    [5] [] [] [] [] []).1
